import Mathlib

/-!
Shallow embedding of the schedule evaluation and action-decision engine of
src/index.ts (serverless AWS instance scheduler).  The Lambda handler maps
over the input schedules; each schedule is checked by a time-window gate, a
weekday gate and a holiday gate, then dispatched on the concatenated string
resourceType + eventType to one of four start/stop deciders over the EC2 or
Lightsail snapshot.  I/O (axios fetch, AWS SDK sends, console.log) is out of
scope; the embedding covers the pure decision logic that produces one
ResultItem per schedule.
-/

namespace Scheduler

/-- EventSchedule record from src/types.ts: one schedule rule of the input
event.  The field holiday is optional in the TypeScript interface. -/
structure EventSchedule where
  resourceType : String
  resourceId : String
  eventType : String
  eventHour : Int
  eventMinute : Int
  weekdays : List Int
  holiday : Option Int
deriving DecidableEq

/-- ResultItem record from src/types.ts: the per-schedule decision returned
by the handler (the source spells the first field resouceType). -/
structure ResultItem where
  resouceType : String
  resourceId : String
  eventType : String
  details : String
deriving DecidableEq

/-- State sub-object of an EC2 instance (AWS SDK shape): optional Name. -/
structure EC2InstanceState where
  Name : Option String
deriving DecidableEq

/-- EC2 instance entry of a DescribeInstances snapshot (AWS SDK shape):
optional InstanceId and optional State. -/
structure EC2Instance where
  InstanceId : Option String
  State : Option EC2InstanceState
deriving DecidableEq

/-- Reservation entry of a DescribeInstances snapshot: the Instances list is
optional (the source guards it with `reservation.Instances || []`). -/
structure Reservation where
  Instances : Option (List EC2Instance)
deriving DecidableEq

/-- DescribeInstancesCommandOutput: the Reservations list is optional (the
source guards it with optional chaining). -/
structure DescribeInstancesCommandOutput where
  Reservations : Option (List Reservation)
deriving DecidableEq

/-- State sub-object of a Lightsail instance: optional name. -/
structure LightsailInstanceState where
  name : Option String
deriving DecidableEq

/-- Lightsail instance entry of a GetInstances snapshot: optional name,
state and resourceType discriminator. -/
structure LightsailInstance where
  name : Option String
  state : Option LightsailInstanceState
  resourceType : Option String
deriving DecidableEq

/-- GetInstancesCommandOutput: the instances list is optional. -/
structure GetInstancesCommandOutput where
  instances : Option (List LightsailInstance)
deriving DecidableEq

/-- Constant JST_TZ_OFFSET from src/index.ts line 21. -/
def JST_TZ_OFFSET : Int := 9

/-- Constant CANCEL_EVENT_ON_PUBLIC_HOLIDAY from src/index.ts line 23. -/
def CANCEL_EVENT_ON_PUBLIC_HOLIDAY : Int := 1

/-- Model of the platform weekday formatter japaneseWeekday (an
Intl.DateTimeFormat with long Japanese weekday names): maps the result of
Date.getDay (0 = Sunday .. 6 = Saturday) to the Japanese weekday name. -/
def japaneseWeekdayFormat (day : Int) : String :=
  if day = 0 then "日曜日"
  else if day = 1 then "月曜日"
  else if day = 2 then "火曜日"
  else if day = 3 then "水曜日"
  else if day = 4 then "木曜日"
  else if day = 5 then "金曜日"
  else if day = 6 then "土曜日"
  else ""

/-- Per-invocation environment of the handler (src/index.ts lines 42-67):
the values the handler computes once before mapping over the schedules.
nowHour and nowMinute are the local hour and minute of the real clock before
the JST shift (currentDate and each eventDate are built from the same
current day with setHours, which zeroes seconds and milliseconds and offsets
from the same local midnight); currentDay is currentDate.getDay();
currentDateStr is the formatted date key of the shifted current date; the
holiday calendar is the date-to-name mapping fetched from the holiday API;
the two snapshots are the DescribeInstances and GetInstances results. -/
structure HandlerEnv where
  nowHour : Int
  nowMinute : Int
  currentDay : Int
  currentDateStr : String
  holidays : List (String × String)
  ec2Result : DescribeInstancesCommandOutput
  lightsailResult : GetInstancesCommandOutput

/-- todayIsHoliday (src/index.ts line 61): whether the current date key is
among the keys of the fetched holiday mapping. -/
def todayIsHoliday (env : HandlerEnv) : Bool :=
  (env.holidays.map Prod.fst).contains env.currentDateStr

/-- Display name looked up in the holiday mapping at the current date key
(the indexing holidays[currentDateStr] at src/index.ts line 86; indexing a
missing key would render as undefined, but the access is guarded by
todayIsHoliday). -/
def holidayNameToday (env : HandlerEnv) : String :=
  (env.holidays.lookup env.currentDateStr).getD "undefined"

/-- diffSecond (src/index.ts lines 72-74): currentDate and eventDate are
both produced by setHours on the same local day, so both equal local
midnight plus the given hours and minutes with seconds and milliseconds
zeroed; the difference in seconds is therefore the difference of the two
minute counts times 60 (the shared midnight cancels). -/
def diffSecond (env : HandlerEnv) (schedule : EventSchedule) : Int :=
  (((env.nowHour + JST_TZ_OFFSET) * 60 + env.nowMinute)
    - ((schedule.eventHour + JST_TZ_OFFSET) * 60 + schedule.eventMinute)) * 60

/-- createResultItem (src/index.ts lines 245-252). -/
def createResultItem (schedule : EventSchedule) (details : String) : ResultItem :=
  { resouceType := schedule.resourceType
    resourceId := schedule.resourceId
    eventType := schedule.eventType
    details := details }

/-- searchEc2Instance (src/index.ts lines 120-127): flatten the optional
Reservations list of optional Instances lists and find the first instance
whose InstanceId equals the resourceId. -/
def searchEc2Instance (resourceId : String)
    (ec2Result : DescribeInstancesCommandOutput) : Option EC2Instance :=
  ((ec2Result.Reservations.getD []).flatMap
      fun reservation => reservation.Instances.getD []).find?
    fun inst => inst.InstanceId == some resourceId

/-- searchLightsailInstance (src/index.ts lines 135-142): find the first
entry whose resourceType discriminator is the string Instance and whose name
equals the resourceId. -/
def searchLightsailInstance (resourceId : String)
    (lightsailResult : GetInstancesCommandOutput) : Option LightsailInstance :=
  (lightsailResult.instances.getD []).find?
    fun inst => inst.resourceType == some "Instance" && inst.name == some resourceId

/-- startEc2Instance (src/index.ts lines 150-165).  The StartInstancesCommand
send is fire-and-forget I/O; the embedding keeps the returned ResultItem. -/
def startEc2Instance (schedule : EventSchedule)
    (ec2Result : DescribeInstancesCommandOutput) : ResultItem :=
  match searchEc2Instance schedule.resourceId ec2Result with
  | some targetInstance =>
    if targetInstance.State.bind EC2InstanceState.Name = some "running" then
      createResultItem schedule "インスタンスは既に起動しているため何もしませんでした"
    else
      createResultItem schedule "インスタンス起動の指示をしました"
  | none => createResultItem schedule "インスタンスが見つかりませんでした"

/-- stopEc2Instance (src/index.ts lines 173-189). -/
def stopEc2Instance (schedule : EventSchedule)
    (ec2Result : DescribeInstancesCommandOutput) : ResultItem :=
  match searchEc2Instance schedule.resourceId ec2Result with
  | some targetInstance =>
    if targetInstance.State.bind EC2InstanceState.Name = some "stopped" then
      createResultItem schedule "インスタンスは既に停止しているため何もしませんでした"
    else
      createResultItem schedule "インスタンス停止の指示を行いました"
  | none => createResultItem schedule "インスタンスが見つかりませんでした"

/-- startLightsailInstance (src/index.ts lines 197-213). -/
def startLightsailInstance (schedule : EventSchedule)
    (lightsailResult : GetInstancesCommandOutput) : ResultItem :=
  match searchLightsailInstance schedule.resourceId lightsailResult with
  | some targetInstance =>
    if targetInstance.state.bind LightsailInstanceState.name = some "running" then
      createResultItem schedule "インスタンスは既に起動しているため何もしませんでした"
    else
      createResultItem schedule "インスタンス起動の指示をしました"
  | none => createResultItem schedule "インスタンスが見つかりませんでした"

/-- stopLightsailInstance (src/index.ts lines 221-237). -/
def stopLightsailInstance (schedule : EventSchedule)
    (lightsailResult : GetInstancesCommandOutput) : ResultItem :=
  match searchLightsailInstance schedule.resourceId lightsailResult with
  | some targetInstance =>
    if targetInstance.state.bind LightsailInstanceState.name = some "stopped" then
      createResultItem schedule "インスタンスは既に停止しているため何もしませんでした"
    else
      createResultItem schedule "インスタンス停止の指示を行いました"
  | none => createResultItem schedule "インスタンスが見つかりませんでした"

/-- Dispatch on the concatenated key resourceType + eventType (src/index.ts
lines 89-101): the switch over the four supported keys, falling through to
the unrecognized-configuration result. -/
def dispatchSchedule (env : HandlerEnv) (schedule : EventSchedule) : ResultItem :=
  let resourceEventType := schedule.resourceType ++ schedule.eventType
  if resourceEventType = "ec2start" then startEc2Instance schedule env.ec2Result
  else if resourceEventType = "ec2stop" then stopEc2Instance schedule env.ec2Result
  else if resourceEventType = "lightsailstart" then startLightsailInstance schedule env.lightsailResult
  else if resourceEventType = "lightsailstop" then stopLightsailInstance schedule env.lightsailResult
  else createResultItem schedule "設定が正しくない可能性があります"

/-- Holiday gate (src/index.ts lines 84-87): early return when today is a
holiday and the schedule opted into holiday cancellation; otherwise continue
to the dispatch. -/
def holidayGate (env : HandlerEnv) (schedule : EventSchedule) : ResultItem :=
  if todayIsHoliday env ∧ schedule.holiday = some CANCEL_EVENT_ON_PUBLIC_HOLIDAY then
    createResultItem schedule
      ("本日は祝日(" ++ holidayNameToday env ++ ")のため何もしませんでした")
  else dispatchSchedule env schedule

/-- Weekday gate (src/index.ts lines 79-82): early return when the current
weekday is not listed in the schedule; otherwise continue to the holiday
gate. -/
def weekdayGate (env : HandlerEnv) (schedule : EventSchedule) : ResultItem :=
  if ¬ schedule.weekdays.contains env.currentDay then
    createResultItem schedule
      ("本日は" ++ japaneseWeekdayFormat env.currentDay ++ "のため何もしませんでした")
  else holidayGate env schedule

/-- Per-schedule evaluation, the body of the map at src/index.ts lines
69-102: time-window gate, then weekday gate, holiday gate and dispatch via
the early-return chain. -/
def evaluateSchedule (env : HandlerEnv) (schedule : EventSchedule) : ResultItem :=
  if diffSecond env schedule < 0 ∨ 300 < diffSecond env schedule then
    createResultItem schedule "対象時間外のため何もしませんでした"
  else weekdayGate env schedule

/-- The time-window predicate of src/index.ts line 75 as a predicate on the
computed difference in seconds: the schedule stays eligible exactly when the
skip condition diffSecond < 0 or 300 < diffSecond fails. -/
def timeWindowMatches (d : Int) : Prop :=
  ¬ (d < 0 ∨ 300 < d)

instance (d : Int) : Decidable (timeWindowMatches d) := by
  unfold timeWindowMatches
  infer_instance

/-- The decision list of one invocation (src/index.ts line 69): the map of
the per-schedule evaluation over the input schedules. -/
def handlerResults (env : HandlerEnv) (schedules : List EventSchedule) : List ResultItem :=
  schedules.map (evaluateSchedule env)

/-! Claim-specific concrete inputs. -/

/-- Concrete schedule used for the time-window boundary counterexample:
event at 09:00 JST, empty weekday list. -/
def c1Sched : EventSchedule :=
  { resourceType := "ec2", resourceId := "i-abc", eventType := "start",
    eventHour := 9, eventMinute := 0, weekdays := [], holiday := none }

/-- Concrete environment whose clock is 09:05 JST, so the difference to the
09:00 event of c1Sched is exactly 300 seconds. -/
def c1Env : HandlerEnv :=
  { nowHour := 9, nowMinute := 5, currentDay := 3,
    currentDateStr := "2024-01-10", holidays := [],
    ec2Result := { Reservations := some [] },
    lightsailResult := { instances := some [] } }

/-- Concrete environment whose clock is 08:00 JST, one hour before the
09:00 event of c1Sched (difference is -3600 seconds). -/
def c1wEnv : HandlerEnv :=
  { nowHour := 8, nowMinute := 0, currentDay := 3,
    currentDateStr := "2024-01-10", holidays := [],
    ec2Result := { Reservations := some [] },
    lightsailResult := { instances := some [] } }

/-- C1 counterexample: the claim says a difference of exactly 300 seconds
does NOT match the time window, but at 09:05 against a 09:00 event the
computed difference is exactly 300 and the evaluation does not return the
out-of-window skip (the skip condition at src/index.ts line 75 is
diffSecond < 0 or 300 < diffSecond, which is false at 300). -/
theorem timeWindow_boundary_cex :
    diffSecond c1Env c1Sched = 300 ∧
    timeWindowMatches 300 ∧
    evaluateSchedule c1Env c1Sched ≠
      createResultItem c1Sched "対象時間外のため何もしませんでした" := by
  refine ⟨by decide, by decide, by decide⟩

/-- C1 (amended): the Time Window Matcher matches exactly the closed
interval 0 ≤ diff ≤ 300 seconds (0 matches, 299 matches, 300 also matches,
negative does not, 301 does not), and whenever the matcher rejects the
computed difference, the evaluation returns the out-of-window skip item. -/
theorem timeWindow_closed_interval (d : Int) (env : HandlerEnv) (s : EventSchedule) :
    (timeWindowMatches d ↔ 0 ≤ d ∧ d ≤ 300) ∧
    (¬ timeWindowMatches (diffSecond env s) →
      evaluateSchedule env s = createResultItem s "対象時間外のため何もしませんでした") := by
  constructor
  · unfold timeWindowMatches
    omega
  · intro h
    unfold timeWindowMatches at h
    unfold evaluateSchedule
    rw [if_pos (not_not.mp h)]

/-- Witness for the amended C1 theorem at diff = -3600: the matcher rejects
and the evaluation returns the out-of-window skip. -/
theorem timeWindow_closed_interval_witness :
    evaluateSchedule c1wEnv c1Sched =
      createResultItem c1Sched "対象時間外のため何もしませんでした" :=
  (timeWindow_closed_interval 0 c1wEnv c1Sched).2 (by decide)

/-- C3: the evaluation produces exactly one decision per input schedule, in
input order: the result list has the same length as the input and its entry
at every index is the evaluation of the input schedule at that index. -/
theorem one_decision_per_rule_in_order (env : HandlerEnv)
    (schedules : List EventSchedule) :
    (handlerResults env schedules).length = schedules.length ∧
    ∀ i : Nat, (handlerResults env schedules).get? i
      = (schedules.get? i).map (evaluateSchedule env) := by
  refine ⟨by simp [handlerResults], fun i => ?_⟩
  simp [handlerResults]

/-- Witness for C3 on a concrete two-schedule input: two decisions come
back, in order. -/
theorem one_decision_per_rule_in_order_witness :
    (handlerResults c1Env [c1Sched, c1Sched]).length = 2 ∧
    (handlerResults c1Env [c1Sched, c1Sched]).get? 0
      = some (evaluateSchedule c1Env c1Sched) := by
  have h := one_decision_per_rule_in_order c1Env [c1Sched, c1Sched]
  exact ⟨h.1, by rw [h.2 0]; rfl⟩

/-- C8: the evaluation is deterministic: two runs of the evaluation on the
same environment and schedule list produce equal decision lists. -/
theorem evaluation_deterministic (env : HandlerEnv)
    (schedules : List EventSchedule) (r1 r2 : List ResultItem)
    (h1 : r1 = handlerResults env schedules)
    (h2 : r2 = handlerResults env schedules) :
    r1 = r2 :=
  h1.trans h2.symm

/-- Witness for C8: two concrete runs on the same input coincide. -/
theorem evaluation_deterministic_witness :
    handlerResults c1Env [c1Sched] = handlerResults c1Env [c1Sched] :=
  evaluation_deterministic c1Env [c1Sched] _ _ rfl rfl

/-- Concrete schedule targeting resource i-1 (action-decider witness). -/
def c2Sched : EventSchedule :=
  { resourceType := "ec2", resourceId := "i-1", eventType := "start",
    eventHour := 9, eventMinute := 0, weekdays := [3], holiday := none }

/-- Concrete EC2 instance i-1 in the running state. -/
def c2Inst : EC2Instance :=
  { InstanceId := some "i-1", State := some { Name := some "running" } }

/-- Concrete EC2 snapshot holding only the running instance i-1. -/
def c2Ec2Out : DescribeInstancesCommandOutput :=
  { Reservations := some [{ Instances := some [c2Inst] }] }

/-- Concrete Lightsail instance named i-1, stopped, with the Instance
discriminator. -/
def c2LsInst : LightsailInstance :=
  { name := some "i-1", state := some { name := some "stopped" },
    resourceType := some "Instance" }

/-- Concrete Lightsail snapshot holding only the stopped instance i-1. -/
def c2LsOut : GetInstancesCommandOutput :=
  { instances := some [c2LsInst] }

/-- C2: the action deciders follow the state table for both resource kinds:
when the resource is located, a start is a skip exactly when the status is
running and otherwise a fire, a stop is a skip exactly when the status is
stopped and otherwise a fire (so any other status, absent state included,
fires); when the resource is not located, both actions return the
resource-not-found skip. -/
theorem action_decider_state_table (s : EventSchedule)
    (ec2Out : DescribeInstancesCommandOutput) (lsOut : GetInstancesCommandOutput) :
    (∀ inst, searchEc2Instance s.resourceId ec2Out = some inst →
      startEc2Instance s ec2Out =
        createResultItem s (if inst.State.bind EC2InstanceState.Name = some "running"
          then "インスタンスは既に起動しているため何もしませんでした"
          else "インスタンス起動の指示をしました") ∧
      stopEc2Instance s ec2Out =
        createResultItem s (if inst.State.bind EC2InstanceState.Name = some "stopped"
          then "インスタンスは既に停止しているため何もしませんでした"
          else "インスタンス停止の指示を行いました")) ∧
    (searchEc2Instance s.resourceId ec2Out = none →
      startEc2Instance s ec2Out = createResultItem s "インスタンスが見つかりませんでした" ∧
      stopEc2Instance s ec2Out = createResultItem s "インスタンスが見つかりませんでした") ∧
    (∀ inst, searchLightsailInstance s.resourceId lsOut = some inst →
      startLightsailInstance s lsOut =
        createResultItem s (if inst.state.bind LightsailInstanceState.name = some "running"
          then "インスタンスは既に起動しているため何もしませんでした"
          else "インスタンス起動の指示をしました") ∧
      stopLightsailInstance s lsOut =
        createResultItem s (if inst.state.bind LightsailInstanceState.name = some "stopped"
          then "インスタンスは既に停止しているため何もしませんでした"
          else "インスタンス停止の指示を行いました")) ∧
    (searchLightsailInstance s.resourceId lsOut = none →
      startLightsailInstance s lsOut = createResultItem s "インスタンスが見つかりませんでした" ∧
      stopLightsailInstance s lsOut = createResultItem s "インスタンスが見つかりませんでした") := by
  refine ⟨fun inst h => ⟨?_, ?_⟩, fun h => ⟨?_, ?_⟩,
    fun inst h => ⟨?_, ?_⟩, fun h => ⟨?_, ?_⟩⟩ <;>
    simp only [startEc2Instance, stopEc2Instance, startLightsailInstance,
      stopLightsailInstance, h] <;>
    (split <;> rfl)

/-- Witness for C2: start against the running EC2 instance i-1 is the
already-running skip, stop against the stopped Lightsail instance i-1 is
the already-stopped skip. -/
theorem action_decider_state_table_witness :
    startEc2Instance c2Sched c2Ec2Out =
      createResultItem c2Sched (if c2Inst.State.bind EC2InstanceState.Name = some "running"
        then "インスタンスは既に起動しているため何もしませんでした"
        else "インスタンス起動の指示をしました") ∧
    stopLightsailInstance c2Sched c2LsOut =
      createResultItem c2Sched (if c2LsInst.state.bind LightsailInstanceState.name = some "stopped"
        then "インスタンスは既に停止しているため何もしませんでした"
        else "インスタンス停止の指示を行いました") :=
  ⟨((action_decider_state_table c2Sched c2Ec2Out c2LsOut).1 c2Inst rfl).1,
   ((action_decider_state_table c2Sched c2Ec2Out c2LsOut).2.2.1 c2LsInst rfl).2⟩

/-- C7: the resource locator is polymorphic over the two kinds: the EC2
lookup returns an instance only if its InstanceId equals the resourceId and
it occurs in the flattened reservations, and returns none exactly when no
flattened instance has that InstanceId; the Lightsail lookup returns an
entry only if its resourceType discriminator is Instance and its name
equals the resourceId, and returns none exactly when no entry satisfies
both; absence of a match is the none result, not an error. -/
theorem resource_locator_polymorphic (resourceId : String)
    (ec2Out : DescribeInstancesCommandOutput) (lsOut : GetInstancesCommandOutput) :
    (∀ inst, searchEc2Instance resourceId ec2Out = some inst →
      inst.InstanceId = some resourceId ∧
      inst ∈ (ec2Out.Reservations.getD []).flatMap fun r => r.Instances.getD []) ∧
    (searchEc2Instance resourceId ec2Out = none ↔
      ∀ inst ∈ (ec2Out.Reservations.getD []).flatMap (fun r => r.Instances.getD []),
        inst.InstanceId ≠ some resourceId) ∧
    (∀ inst, searchLightsailInstance resourceId lsOut = some inst →
      (inst.resourceType = some "Instance" ∧ inst.name = some resourceId) ∧
      inst ∈ lsOut.instances.getD []) ∧
    (searchLightsailInstance resourceId lsOut = none ↔
      ∀ inst ∈ lsOut.instances.getD [],
        ¬ (inst.resourceType = some "Instance" ∧ inst.name = some resourceId)) := by
  refine ⟨fun inst h => ⟨?_, List.mem_of_find?_eq_some h⟩, ?_,
    fun inst h => ⟨?_, List.mem_of_find?_eq_some h⟩, ?_⟩
  · have hp := List.find?_some h
    simpa using hp
  · unfold searchEc2Instance
    rw [List.find?_eq_none]
    simp
  · have hp := List.find?_some h
    simpa using hp
  · unfold searchLightsailInstance
    rw [List.find?_eq_none]
    simp

/-- Witness for C7: the located running EC2 instance i-1 indeed carries
InstanceId i-1 and occurs in the flattened snapshot. -/
theorem resource_locator_polymorphic_witness :
    c2Inst.InstanceId = some "i-1" ∧
    c2Inst ∈ (c2Ec2Out.Reservations.getD []).flatMap fun r => r.Instances.getD [] :=
  (resource_locator_polymorphic "i-1" c2Ec2Out c2LsOut).1 c2Inst rfl

/-- Concrete environment whose snapshots both have their listing field
absent. -/
def c10Env : HandlerEnv :=
  { nowHour := 9, nowMinute := 0, currentDay := 3,
    currentDateStr := "2024-01-10", holidays := [],
    ec2Result := { Reservations := none },
    lightsailResult := { instances := none } }

/-- C10: the locators are total on degenerate snapshots: an absent
Reservations field, reservations whose Instances field is absent, and an
absent instances field all yield none; and a supported rule dispatched
against such field-less snapshots yields the resource-not-found skip
instead of aborting. -/
theorem resource_locator_total (rid : String) (rs : List Reservation)
    (hrs : ∀ r ∈ rs, r.Instances = none) :
    searchEc2Instance rid { Reservations := none } = none ∧
    searchEc2Instance rid { Reservations := some rs } = none ∧
    searchLightsailInstance rid { instances := none } = none ∧
    (∀ env s, env.ec2Result = { Reservations := none } →
      env.lightsailResult = { instances := none } →
      (s.resourceType ++ s.eventType = "ec2start" ∨
       s.resourceType ++ s.eventType = "ec2stop" ∨
       s.resourceType ++ s.eventType = "lightsailstart" ∨
       s.resourceType ++ s.eventType = "lightsailstop") →
      dispatchSchedule env s = createResultItem s "インスタンスが見つかりませんでした") := by
  have hflat : (rs.flatMap fun r => r.Instances.getD []) = [] := by
    rw [List.flatMap_eq_nil_iff]
    intro r hr
    rw [hrs r hr]
    rfl
  refine ⟨rfl, ?_, rfl, ?_⟩
  · unfold searchEc2Instance
    simp [hflat]
  · intro env s h1 h2 hkey
    rcases env with ⟨nh, nm, cd, cds, hol, e2, ls⟩
    simp only at h1 h2
    subst h1
    subst h2
    rcases hkey with hk | hk | hk | hk <;>
      simp [dispatchSchedule, hk, startEc2Instance, stopEc2Instance,
        startLightsailInstance, stopLightsailInstance,
        searchEc2Instance, searchLightsailInstance]

/-- Witness for C10: against the field-less snapshots, the EC2 lookup is
none and the dispatched start yields the resource-not-found skip. -/
theorem resource_locator_total_witness :
    searchEc2Instance "i-abc" { Reservations := none } = none ∧
    dispatchSchedule c10Env c1Sched =
      createResultItem c1Sched "インスタンスが見つかりませんでした" :=
  ⟨(resource_locator_total "i-abc" [{ Instances := none }] (by decide)).1,
   (resource_locator_total "i-abc" [{ Instances := none }] (by decide)).2.2.2
     c10Env c1Sched rfl rfl (Or.inl rfl)⟩

/-- Concrete schedule whose resourceType is "ec2st" and eventType is "art":
the pair is not a supported combination, but the concatenation collides
with "ec2start". -/
def c4Sched : EventSchedule :=
  { resourceType := "ec2st", resourceId := "i-x", eventType := "art",
    eventHour := 9, eventMinute := 0, weekdays := [3], holiday := none }

/-- Concrete environment at 09:02 JST on a Wednesday with no holidays and
empty snapshots. -/
def c4Env : HandlerEnv :=
  { nowHour := 9, nowMinute := 2, currentDay := 3,
    currentDateStr := "2024-01-10", holidays := [],
    ec2Result := { Reservations := some [] },
    lightsailResult := { instances := some [] } }

/-- Concrete schedule with the genuinely unrecognizable kind/action pair
(foo, bar). -/
def c4wSched : EventSchedule :=
  { resourceType := "foo", resourceId := "i-x", eventType := "bar",
    eventHour := 9, eventMinute := 0, weekdays := [3], holiday := none }

/-- C4 counterexample: the pair (ec2st, art) is not one of the four
supported (resourceKind, action) pairs, yet the rule passing all gates is
NOT skipped as unrecognized configuration: the switch key is the string
concatenation resourceType + eventType, and "ec2st" ++ "art" collides with
"ec2start", so the rule is dispatched to the EC2 start decider (here
yielding the resource-not-found result). -/
theorem unrecognized_pair_cex :
    ((c4Sched.resourceType, c4Sched.eventType) ∉
      [("ec2", "start"), ("ec2", "stop"),
       ("lightsail", "start"), ("lightsail", "stop")]) ∧
    evaluateSchedule c4Env c4Sched =
      createResultItem c4Sched "インスタンスが見つかりませんでした" ∧
    evaluateSchedule c4Env c4Sched ≠
      createResultItem c4Sched "設定が正しくない可能性があります" := by
  refine ⟨by decide, by decide, by decide⟩

/-- C4 (amended): for every rule that passes the three gates and whose
concatenated key resourceType ++ eventType is none of the four strings
"ec2start", "ec2stop", "lightsailstart", "lightsailstop", the decision is
the unrecognized-configuration skip, and the surrounding evaluation is
unaffected: the decision list of any rule list containing the rule is the
pointwise evaluation of the preceding rules, this skip, and the pointwise
evaluation of the following rules. -/
theorem unrecognized_concat_skip (env : HandlerEnv) (s : EventSchedule)
    (hwin : timeWindowMatches (diffSecond env s))
    (hwd : s.weekdays.contains env.currentDay)
    (hhol : ¬ (todayIsHoliday env ∧ s.holiday = some CANCEL_EVENT_ON_PUBLIC_HOLIDAY))
    (h1 : s.resourceType ++ s.eventType ≠ "ec2start")
    (h2 : s.resourceType ++ s.eventType ≠ "ec2stop")
    (h3 : s.resourceType ++ s.eventType ≠ "lightsailstart")
    (h4 : s.resourceType ++ s.eventType ≠ "lightsailstop") :
    evaluateSchedule env s = createResultItem s "設定が正しくない可能性があります" ∧
    ∀ pre post : List EventSchedule,
      handlerResults env (pre ++ s :: post) =
        handlerResults env pre ++ evaluateSchedule env s :: handlerResults env post := by
  have hw : ¬ (diffSecond env s < 0 ∨ 300 < diffSecond env s) := hwin
  constructor
  · simp only [evaluateSchedule, weekdayGate, holidayGate, dispatchSchedule]
    rw [if_neg hw, if_neg (not_not_intro hwd), if_neg hhol,
      if_neg h1, if_neg h2, if_neg h3, if_neg h4]
  · intro pre post
    simp [handlerResults]

/-- Witness for the amended C4: the rule (foo, bar) among two well-formed
rules yields the unrecognized-configuration skip and leaves the neighbours
pointwise evaluated. -/
theorem unrecognized_concat_skip_witness :
    evaluateSchedule c4Env c4wSched =
      createResultItem c4wSched "設定が正しくない可能性があります" ∧
    handlerResults c4Env ([c1Sched] ++ c4wSched :: [c1Sched]) =
      handlerResults c4Env [c1Sched] ++
        evaluateSchedule c4Env c4wSched :: handlerResults c4Env [c1Sched] := by
  have h := unrecognized_concat_skip c4Env c4wSched (by decide) (by decide)
    (by decide) (by decide) (by decide) (by decide) (by decide)
  exact ⟨h.1, h.2 [c1Sched] [c1Sched]⟩

/-- Concrete holiday environment: 2024-01-01 (a Monday) is in the calendar
with the display name 元日, clock at 09:00 JST. -/
def c5Env : HandlerEnv :=
  { nowHour := 9, nowMinute := 0, currentDay := 1,
    currentDateStr := "2024-01-01", holidays := [("2024-01-01", "元日")],
    ec2Result := { Reservations := some [] },
    lightsailResult := { instances := some [] } }

/-- Concrete schedule opting into holiday cancellation. -/
def c5Sched : EventSchedule :=
  { resourceType := "ec2", resourceId := "i-1", eventType := "start",
    eventHour := 9, eventMinute := 0, weekdays := [1], holiday := some 1 }

/-- The same schedule with the ignore policy (holiday field 0). -/
def c5IgnSched : EventSchedule :=
  { resourceType := "ec2", resourceId := "i-1", eventType := "start",
    eventHour := 9, eventMinute := 0, weekdays := [1], holiday := some 0 }

/-- C5: for a rule inside its window and on an operating weekday, the
holiday gate cancels exactly when today is a holiday AND the rule's holiday
field equals the cancellation constant; the skip detail carries the
calendar's display name looked up at today's date key; otherwise the rule
falls through this gate to the dispatch. -/
theorem holiday_guard_cancels_iff (env : HandlerEnv) (s : EventSchedule)
    (hwin : timeWindowMatches (diffSecond env s))
    (hwd : s.weekdays.contains env.currentDay) :
    (todayIsHoliday env ∧ s.holiday = some CANCEL_EVENT_ON_PUBLIC_HOLIDAY →
      evaluateSchedule env s = createResultItem s
        ("本日は祝日(" ++ holidayNameToday env ++ ")のため何もしませんでした")) ∧
    (¬ (todayIsHoliday env ∧ s.holiday = some CANCEL_EVENT_ON_PUBLIC_HOLIDAY) →
      evaluateSchedule env s = dispatchSchedule env s) := by
  have hw : ¬ (diffSecond env s < 0 ∨ 300 < diffSecond env s) := hwin
  constructor
  · intro hc
    simp only [evaluateSchedule, weekdayGate, holidayGate]
    rw [if_neg hw, if_neg (not_not_intro hwd), if_pos hc]
  · intro hc
    simp only [evaluateSchedule, weekdayGate, holidayGate]
    rw [if_neg hw, if_neg (not_not_intro hwd), if_neg hc]

/-- Witness for C5: on the 元日 holiday the cancelling rule is skipped with
the display name in the detail, and the ignore-policy rule falls through to
the dispatch. -/
theorem holiday_guard_cancels_iff_witness :
    evaluateSchedule c5Env c5Sched = createResultItem c5Sched
      ("本日は祝日(" ++ holidayNameToday c5Env ++ ")のため何もしませんでした") ∧
    evaluateSchedule c5Env c5IgnSched = dispatchSchedule c5Env c5IgnSched :=
  ⟨(holiday_guard_cancels_iff c5Env c5Sched (by decide) (by decide)).1 (by decide),
   (holiday_guard_cancels_iff c5Env c5IgnSched (by decide) (by decide)).2 (by decide)⟩

/-- Concrete weekday-filter schedule operating Monday through Friday. -/
def c6Sched : EventSchedule :=
  { resourceType := "ec2", resourceId := "i-1", eventType := "start",
    eventHour := 9, eventMinute := 0, weekdays := [1, 2, 3, 4, 5],
    holiday := none }

/-- Concrete environment on a Sunday at 09:00 JST. -/
def c6SunEnv : HandlerEnv :=
  { nowHour := 9, nowMinute := 0, currentDay := 0,
    currentDateStr := "2024-01-07", holidays := [],
    ec2Result := { Reservations := some [] },
    lightsailResult := { instances := some [] } }

/-- Concrete environment on a Wednesday at 09:00 JST. -/
def c6WedEnv : HandlerEnv :=
  { nowHour := 9, nowMinute := 0, currentDay := 3,
    currentDateStr := "2024-01-10", holidays := [],
    ec2Result := { Reservations := some [] },
    lightsailResult := { instances := some [] } }

/-- C6: for a rule inside its window, the weekday gate skips exactly when
the current weekday is not contained in the rule's weekday list (the skip
detail naming the weekday), and otherwise passes the rule to the holiday
gate. -/
theorem weekday_filter_membership (env : HandlerEnv) (s : EventSchedule)
    (hwin : timeWindowMatches (diffSecond env s)) :
    (¬ s.weekdays.contains env.currentDay →
      evaluateSchedule env s = createResultItem s
        ("本日は" ++ japaneseWeekdayFormat env.currentDay ++ "のため何もしませんでした")) ∧
    (s.weekdays.contains env.currentDay →
      evaluateSchedule env s = holidayGate env s) := by
  have hw : ¬ (diffSecond env s < 0 ∨ 300 < diffSecond env s) := hwin
  constructor
  · intro hc
    simp only [evaluateSchedule, weekdayGate]
    rw [if_neg hw, if_pos hc]
  · intro hc
    simp only [evaluateSchedule, weekdayGate]
    rw [if_neg hw, if_neg (not_not_intro hc)]

/-- Witness for C6: the Monday-to-Friday rule is skipped on Sunday (weekday
0) and passes the gate on Wednesday (weekday 3). -/
theorem weekday_filter_membership_witness :
    evaluateSchedule c6SunEnv c6Sched = createResultItem c6Sched
      ("本日は" ++ japaneseWeekdayFormat c6SunEnv.currentDay ++ "のため何もしませんでした") ∧
    evaluateSchedule c6WedEnv c6Sched = holidayGate c6WedEnv c6Sched :=
  ⟨(weekday_filter_membership c6SunEnv c6Sched (by decide)).1 (by decide),
   (weekday_filter_membership c6WedEnv c6Sched (by decide)).2 (by decide)⟩

/-- Concrete environment on a holiday Sunday: 2024-01-01 pretended onto
weekday 0 with the calendar entry 元日. -/
def c9Env : HandlerEnv :=
  { nowHour := 9, nowMinute := 0, currentDay := 0,
    currentDateStr := "2024-01-01", holidays := [("2024-01-01", "元日")],
    ec2Result := { Reservations := some [] },
    lightsailResult := { instances := some [] } }

/-- Concrete cancelling rule operating Monday through Friday. -/
def c9Sched : EventSchedule :=
  { resourceType := "ec2", resourceId := "i-1", eventType := "start",
    eventHour := 9, eventMinute := 0, weekdays := [1, 2, 3, 4, 5],
    holiday := some 1 }

/-- C9: when the weekday gate fails on a day that is also a cancelling
holiday for the rule, the decision is the weekday skip and not the holiday
skip: the weekday gate is evaluated before the holiday gate and
short-circuits it. -/
theorem weekday_gate_precedes_holiday_guard (env : HandlerEnv) (s : EventSchedule)
    (hwin : timeWindowMatches (diffSecond env s))
    (hwd : ¬ s.weekdays.contains env.currentDay)
    (hday : 0 ≤ env.currentDay ∧ env.currentDay ≤ 6)
    (hhol : todayIsHoliday env)
    (hpol : s.holiday = some CANCEL_EVENT_ON_PUBLIC_HOLIDAY) :
    evaluateSchedule env s = createResultItem s
      ("本日は" ++ japaneseWeekdayFormat env.currentDay ++ "のため何もしませんでした") ∧
    evaluateSchedule env s ≠ createResultItem s
      ("本日は祝日(" ++ holidayNameToday env ++ ")のため何もしませんでした") := by
  have hw : ¬ (diffSecond env s < 0 ∨ 300 < diffSecond env s) := hwin
  have heq : evaluateSchedule env s = createResultItem s
      ("本日は" ++ japaneseWeekdayFormat env.currentDay ++ "のため何もしませんでした") := by
    simp only [evaluateSchedule, weekdayGate]
    rw [if_neg hw, if_pos hwd]
  refine ⟨heq, ?_⟩
  rw [heq]
  intro hcon
  have hd := congrArg (fun r : ResultItem => r.details.data.get? 3) hcon
  obtain ⟨hd0, hd6⟩ := hday
  obtain ⟨nh, nm, cd, cds, hol, e2, ls⟩ := env
  interval_cases cd
  · exact absurd (show (some '日' : Option Char) = some '祝' from hd) (by decide)
  · exact absurd (show (some '月' : Option Char) = some '祝' from hd) (by decide)
  · exact absurd (show (some '火' : Option Char) = some '祝' from hd) (by decide)
  · exact absurd (show (some '水' : Option Char) = some '祝' from hd) (by decide)
  · exact absurd (show (some '木' : Option Char) = some '祝' from hd) (by decide)
  · exact absurd (show (some '金' : Option Char) = some '祝' from hd) (by decide)
  · exact absurd (show (some '土' : Option Char) = some '祝' from hd) (by decide)

/-- Witness for C9: on the holiday Sunday the Monday-to-Friday cancelling
rule is skipped with the Sunday detail and not with the holiday detail. -/
theorem weekday_gate_precedes_holiday_guard_witness :
    evaluateSchedule c9Env c9Sched = createResultItem c9Sched
      ("本日は" ++ japaneseWeekdayFormat c9Env.currentDay ++ "のため何もしませんでした") ∧
    evaluateSchedule c9Env c9Sched ≠ createResultItem c9Sched
      ("本日は祝日(" ++ holidayNameToday c9Env ++ ")のため何もしませんでした") :=
  weekday_gate_precedes_holiday_guard c9Env c9Sched (by decide) (by decide)
    (by decide) (by decide) (by decide)

end Scheduler
